import Mathlib

/-!
Verification of the node/link persistence core of the provenance store
(file `aiida/orm/implementation/sqlalchemy/node.py`): the node lifecycle
(`store`, attribute and extra access) and the link validation layer
(`_add_dblink_from`, `_do_create_link`, `_store_cached_input_links`).

Machine identifiers (uuid, primary key) are modelled as `Nat`; JSON-like
attribute values as the closed recursive type `PValue`; Python exceptions
as the explicit error type `PyErr` carried in `Except` / `Option`.
-/

namespace AiidaNode

/-- A Python JSON-like value, as stored in node attributes and extras. -/
inductive PValue where
  | pynone : PValue
  | pybool : Bool → PValue
  | pyint : Int → PValue
  | pystr : String → PValue
  | pylist : List PValue → PValue
  | pydict : List (String × PValue) → PValue

/-- Python truthiness of a value: this is the test `if default:` performed
by `get_extra` on its default argument. -/
def PValue.truthy : PValue → Bool
  | .pynone => false
  | .pybool b => b
  | .pyint n => decide (n ≠ 0)
  | .pystr s => decide (s ≠ "")
  | .pylist xs => !xs.isEmpty
  | .pydict xs => !xs.isEmpty

mutual

/-- Python `copy.deepcopy` of a JSON-like value: `_set_attr` deep-copies the value
into the attribute cache of an unstored node. -/
def deepcopy : PValue → PValue
  | .pynone => .pynone
  | .pybool b => .pybool b
  | .pyint n => .pyint n
  | .pystr s => .pystr s
  | .pylist xs => .pylist (deepcopyList xs)
  | .pydict xs => .pydict (deepcopyDict xs)

/-- Python `copy.deepcopy` of a list of values. -/
def deepcopyList : List PValue → List PValue
  | [] => []
  | x :: xs => deepcopy x :: deepcopyList xs

/-- Python `copy.deepcopy` of a dict of values (as an association list). -/
def deepcopyDict : List (String × PValue) → List (String × PValue)
  | [] => []
  | p :: xs => (p.1, deepcopy p.2) :: deepcopyDict xs

end

/-- Lookup of a key in a Python dict modelled as an association list. -/
def alookup : List (String × PValue) → String → Option PValue
  | [], _ => none
  | p :: xs, k => if p.1 = k then some p.2 else alookup xs k

/-- Assignment `d[k] = v` in a Python dict modelled as an association list. -/
def dinsert (xs : List (String × PValue)) (k : String) (v : PValue) :
    List (String × PValue) :=
  (k, v) :: xs.filter (fun p => decide (p.1 ≠ k))

/-- Deletion `del d[k]` in a Python dict modelled as an association list. -/
def dremove (xs : List (String × PValue)) (k : String) :
    List (String × PValue) :=
  xs.filter (fun p => decide (p.1 ≠ k))

/-- The Python exceptions raised by the node/link core.
`ModificationNotAllowed` is the concrete exception behind the abstract
ModificationDenied of the design; `UniquenessError` behind
DuplicateLinkError; `InternalError` behind ConcurrencyExhausted;
`ValueErr` covers the bare ValueError raised for self-links and loops. -/
inductive PyErr where
  | ValueErr : String → PyErr
  | ModificationNotAllowed : String → PyErr
  | UniquenessError : String → PyErr
  | InternalError : String → PyErr
  | AttributeErr : String → PyErr
  | ValidationErr : String → PyErr
  | SQLAlchemyErr : String → PyErr
  | OSErr : String → PyErr
deriving DecidableEq

/-- Modelled from the spec: the closed enumeration of link kinds
(`aiida.common.links.LinkType` is outside the provided sources); `CREATE`
and `INPUT` are the two kinds the cycle check in `_add_dblink_from` treats
as strong. -/
inductive LinkType where
  | UNSPECIFIED : LinkType
  | CREATE : LinkType
  | RETURN : LinkType
  | INPUT : LinkType
  | CALL : LinkType
deriving DecidableEq

/-- The fields of a node that `_add_dblink_from` reads on itself and on its
source argument: the uuid (self-link test), the database primary key (link
row endpoints, path query) and the `_to_be_stored` flag. -/
structure NodeRef where
  uuid : Nat
  id : Nat
  to_be_stored : Bool
deriving DecidableEq

/-- A row of the DbLink table: `input_id` is the source node, `output_id`
the destination node of the directed link. -/
structure LinkRow where
  input_id : Nat
  output_id : Nat
  label : String
  linkType : LinkType
deriving DecidableEq

/-- The shared relational state visible to the session: the DbLink table. -/
structure DB where
  links : List LinkRow
deriving DecidableEq

/-- Modelled from the spec: the backend unique constraint on the
(destination, label) pair of a link row — the DbLink model itself is
outside the provided sources.  True when some link into `dest` already
carries `lbl`. -/
def labelUsed (db : DB) (dest : Nat) (lbl : String) : Bool :=
  db.links.any (fun r => decide (r.output_id = dest ∧ r.label = lbl))

/-- The strong-link edges (CREATE or INPUT) of the DbLink table, as
(parent, child) pairs. -/
def strongEdges (db : DB) : List (Nat × Nat) :=
  (db.links.filter
    (fun r => decide (r.linkType = LinkType.CREATE ∨ r.linkType = LinkType.INPUT))).map
    (fun r => (r.input_id, r.output_id))

/-- Fuel-bounded reachability along a list of directed edges. -/
def reachIn (edges : List (Nat × Nat)) : Nat → Nat → Nat → Bool
  | 0, _, _ => false
  | fuel + 1, a, b =>
    (edges.filter (fun e => decide (e.1 = a))).any
      (fun e => decide (e.2 = b) || reachIn edges fuel e.2 b)

/-- Modelled from the spec: the DbPath transitive-closure table that
`_add_dblink_from` queries (`parent_id=self, child_id=src`); the backend
maintains it as the reachability relation of the strong-link subgraph.
A strong path of length at least one from `a` to `b`. -/
def pathExists (db : DB) (a b : Nat) : Bool :=
  reachIn (strongEdges db) db.links.length a b

/-- The auto-generated label of index `n`: the Python format
`"link_{}".format(n)`. -/
def autoLabel (n : Nat) : String :=
  "link_" ++ toString n

/-- The method `_do_create_link`: insert one link row under a nested transaction; a
backend uniqueness violation on (destination, label) surfaces as
`SQLAlchemyError` and is re-raised as `UniquenessError`, leaving the table
unchanged. -/
def doCreateLink (db : DB) (src self : NodeRef) (label : String)
    (link_type : LinkType) : Except PyErr DB :=
  if labelUsed db self.id label then
    .error (.UniquenessError ("There is already a link with the same name"))
  else
    .ok ⟨⟨src.id, self.id, label, link_type⟩ :: db.links⟩

/-- The body of the retry loop of `_add_dblink_from` for auto-generated
labels, recursing on the remaining attempt budget: with no budget left
give up with `InternalError`, otherwise try `link_<idx>` and on
`UniquenessError` retry with the next index and one less attempt. -/
def autolabelGo (db : DB) (src self : NodeRef) (link_type : LinkType) :
    Nat → Nat → Except PyErr DB
  | _, 0 =>
    .error (.InternalError ("found more than 100 concurrent adds of links to the same nodes"))
  | idx, budget + 1 =>
    match doCreateLink db src self (autoLabel idx) link_type with
    | .ok db' => .ok db'
    | .error (.UniquenessError _) =>
        autolabelGo db src self link_type (idx + 1) budget
    | .error e => .error e

/-- The retry loop of `_add_dblink_from` for auto-generated labels.  The
source increments `safety_counter` at the top of each iteration and gives
up with `InternalError` once it passes 100; the remaining attempt budget
at a loop entry with counter value `counter` is therefore `100 - counter`,
on which the loop body recurses structurally. -/
def autolabelLoop (db : DB) (src self : NodeRef) (link_type : LinkType)
    (idx counter : Nat) : Except PyErr DB :=
  autolabelGo db src self link_type idx (100 - counter)

/-- The SQL filter label LIKE link percent: the label starts with the four
characters of the word link. -/
def likeLinkPercent (s : String) : Bool :=
  List.isPrefixOf (("link").data) s.data

/-- The labels already present on links into `dest` that match the SQL
pattern LIKE link percent — the query feeding the autolabel skip loop. -/
def existingAutolabels (db : DB) (dest : Nat) : List String :=
  (db.links.filter
    (fun r => decide (r.output_id = dest) && likeLinkPercent r.label)).map
    (fun r => r.label)

/-- The initial skip loop of the autolabel branch: advance the index while
`link_<idx>` is among the existing labels.  Fuel-bounded; the caller passes
one more unit of fuel than there are existing labels, which the skip loop
can never exhaust. -/
def skipUsed (existing : List String) : Nat → Nat → Nat
  | idx, 0 => idx
  | idx, fuel + 1 =>
    if autoLabel idx ∈ existing then skipUsed existing (idx + 1) fuel
    else idx

/-- The method `_add_dblink_from(src, label, link_type)` called on the destination
node `self`: self-link test on uuids, storedness tests on both endpoints,
cycle test against the strong-link closure for CREATE/INPUT links, then
either a direct insert under the explicit label or the autolabel loop. -/
def addDblinkFrom (db : DB) (self src : NodeRef) (label : Option String)
    (link_type : LinkType) : Except PyErr DB :=
  if self.uuid = src.uuid then
    .error (.ValueErr ("Cannot link to itself"))
  else if self.to_be_stored then
    .error (.ModificationNotAllowed ("Cannot call the internal add dblink method if the destination node is not stored"))
  else if src.to_be_stored then
    .error (.ModificationNotAllowed ("Cannot call the internal add dblink method if the source node is not stored"))
  else if (link_type = LinkType.CREATE ∨ link_type = LinkType.INPUT) ∧
      pathExists db self.id src.id = true then
    .error (.ValueErr ("The link you are attempting to create would generate a loop"))
  else
    match label with
    | none =>
        let existing := existingAutolabels db self.id
        autolabelLoop db src self link_type
          (skipUsed existing 1 (existing.length + 1)) 0
    | some l => doCreateLink db src self l link_type

/-- The in-memory state of one orm Node object together with the columns
of its DbNode row.  `attrs_cache` is `some`/`none` according to whether the
Python object still carries `_attrs_cache` (the attribute of an unstored
node, deleted by `store`); `db_attributes` / `db_extras` are the attribute
and extras columns of the row; `files_staged` is true while the repository
files sit in the temporary sandbox folder and false once moved to the
permanent repository location; `valid` records the outcome of
`self._validate()` (defined outside the provided sources, modelled from the
spec as a boolean); `inputlinks_cache` is `_inputlinks_cache`, mapping a
label to the source node and the link type. -/
structure NodeState where
  uuid : Nat
  id : Nat
  to_be_stored : Bool
  valid : Bool
  attrs_cache : Option (List (String × PValue))
  db_attributes : List (String × PValue)
  db_extras : List (String × PValue)
  nodeversion : Nat
  files_staged : Bool
  inputlinks_cache : List (String × NodeRef × LinkType)

/-- The fields of a node that the link layer reads. -/
def NodeState.ref (n : NodeState) : NodeRef :=
  ⟨n.uuid, n.id, n.to_be_stored⟩

/-- The method `_set_attr(key, value)`: while unstored, deep-copy the value into the
attribute cache; while stored, write through to the row and increment the
version counter. -/
def set_attr (node : NodeState) (k : String) (v : PValue) : NodeState :=
  if node.to_be_stored then
    { node with
      attrs_cache := some (dinsert (node.attrs_cache.getD []) k (deepcopy v)) }
  else
    { node with
      db_attributes := dinsert node.db_attributes k v,
      nodeversion := node.nodeversion + 1 }

/-- The method `get_attr(key, default)`: read the cache while unstored and the row
column while stored; on a missing key return the default when one was
supplied (`default = some d`) and raise `AttributeError` otherwise. -/
def get_attr (node : NodeState) (k : String) (default : Option PValue) :
    Except PyErr PValue :=
  if node.to_be_stored then
    match alookup (node.attrs_cache.getD []) k with
    | some v => .ok v
    | none =>
      match default with
      | some d => .ok d
      | none => .error (.AttributeErr ("Attribute does not exist"))
  else
    match alookup node.db_attributes k with
    | some v => .ok v
    | none =>
      match default with
      | some d => .ok d
      | none => .error (.AttributeErr ("Attribute does not exist"))

/-- The method `set_extra(key, value)`: refused with `ModificationNotAllowed` while
the node is unstored; otherwise a write-through to the extras column plus a
version increment. -/
def set_extra (node : NodeState) (k : String) (v : PValue) :
    NodeState × Option PyErr :=
  if node.to_be_stored then
    (node,
      some (.ModificationNotAllowed
        ("The extras of a node can be set only after storing the node")))
  else
    ({ node with
       db_extras := dinsert node.db_extras k v,
       nodeversion := node.nodeversion + 1 }, none)

/-- The method `get_extra(key, default=None)`: read the extras column directly (no
storedness test); on a missing key return the default if it is truthy and
raise a bare `AttributeError` otherwise. -/
def get_extra (node : NodeState) (k : String) (default : PValue) :
    Except PyErr PValue :=
  match alookup node.db_extras k with
  | some v => .ok v
  | none =>
    if default.truthy then .ok default
    else .error (.AttributeErr (""))

/-- The method `del_extra(key)`: delegate to the row extras column with no
storedness test (the DbNode column operation itself is outside the
provided sources and is modelled from the spec as a key deletion). -/
def del_extra (node : NodeState) (k : String) : NodeState × Option PyErr :=
  ({ node with db_extras := dremove node.db_extras k }, none)

/-- The method `_check_are_parents_stored`: raise `ModificationNotAllowed` naming the
first cached input link whose source node is not stored. -/
def checkAreParentsStored (node : NodeState) : Option PyErr :=
  match node.inputlinks_cache.find? (fun e => e.2.1.to_be_stored) with
  | some e =>
      some (.ModificationNotAllowed
        ("Cannot store the input link " ++ e.1 ++
         " because the source node is not stored"))
  | none => none

/-- The loop body of `_store_cached_input_links`: flush the cached links
one by one through `_add_dblink_from`; the first failure aborts the loop,
re-raising the error with the session as left by the earlier inserts. -/
def flushLinks (selfRef : NodeRef) :
    DB → List (String × NodeRef × LinkType) → DB × Option PyErr
  | db, [] => (db, none)
  | db, (label, src, lt) :: rest =>
    match addDblinkFrom db selfRef src (some label) lt with
    | .ok db' => flushLinks selfRef db' rest
    | .error e => (db, some e)

/-- The method `_store_cached_input_links`: refuse on an unstored node, re-check that
the parents are stored, flush every cached link, and clear the cache only
when every link was stored. -/
def storeCachedInputLinks (node : NodeState) (db : DB) :
    NodeState × DB × Option PyErr :=
  if node.to_be_stored then
    (node, db, some (.ModificationNotAllowed ("Node is not stored yet")))
  else
    match checkAreParentsStored node with
    | some e => (node, db, some e)
    | none =>
      match flushLinks node.ref db node.inputlinks_cache with
      | (db', none) => ({ node with inputlinks_cache := [] }, db', none)
      | (db', some e) => (node, db', some e)

/-- The in-memory effect of the row-write section of `store`, in source
order: `_dbnode.save(commit=False)`, `dbnode.attributes = _attrs_cache`,
`del _attrs_cache`, `_temp_folder = None`, `_to_be_stored = False`.  The
repository files were already moved out of staging at this point. -/
def afterRowWrite (node : NodeState) : NodeState :=
  { node with
    files_staged := false,
    db_attributes := node.attrs_cache.getD [],
    attrs_cache := none,
    to_be_stored := false }

/-- The environment of one `store` call: the outcomes of the two effectful
backend operations that `store` cannot decide from its own state (the
repository folder move and the row save), and whether the post-commit
autogroup context is present and selects this node. -/
structure Env where
  file_move_ok : Bool
  row_save_ok : Bool
  autogroup_active : Bool
deriving DecidableEq

/-- The observable outcome of one `store` call: the node object, the link
table, the exception propagated to the caller (if any), and whether the
post-commit autogroup hook ran. -/
structure StoreOutcome where
  node : NodeState
  db : DB
  err : Option PyErr
  autogroup_ran : Bool

/-- The method `store(with_transaction=True)`: on an already-stored node the whole
body is skipped and the node returned unchanged.  Otherwise: `_validate`,
`_check_are_parents_stored`, move the staged files to the permanent
repository folder, then under a try block write the row, migrate the
attribute cache into the row, delete the cache, clear `_to_be_stored`, and
flush the cached input links; any exception inside the try block moves the
files back to staging and is re-raised.  On success the autogroup hook may
run post-commit. -/
def store (env : Env) (node : NodeState) (db : DB) : StoreOutcome :=
  if node.to_be_stored then
    if node.valid = false then
      ⟨node, db, some (.ValidationErr ("node validation failed")), false⟩
    else
      match checkAreParentsStored node with
      | some e => ⟨node, db, some e, false⟩
      | none =>
        if env.file_move_ok = false then
          ⟨node, db, some (.OSErr ("could not replace the repository folder")), false⟩
        else
          if env.row_save_ok = false then
            -- the except branch: move the files back and re-raise
            ⟨{ node with files_staged := true }, db,
              some (.SQLAlchemyErr ("could not save the node row")), false⟩
          else
            match storeCachedInputLinks (afterRowWrite node) db with
            | (node', db', none) =>
                ⟨node', db', none, env.autogroup_active⟩
            | (node', db', some e) =>
                -- the except branch: move the files back and re-raise
                ⟨{ node' with files_staged := true }, db', some e, false⟩
  else
    ⟨node, db, none, false⟩

mutual

/-- Deep copy returns a structurally equal value. -/
theorem deepcopy_eq : (v : PValue) → deepcopy v = v
  | .pynone => rfl
  | .pybool _ => rfl
  | .pyint _ => rfl
  | .pystr _ => rfl
  | .pylist xs => by rw [deepcopy, deepcopyList_eq xs]
  | .pydict xs => by rw [deepcopy, deepcopyDict_eq xs]

/-- Deep copy of a list returns a structurally equal list. -/
theorem deepcopyList_eq : (xs : List PValue) → deepcopyList xs = xs
  | [] => rfl
  | x :: xs => by rw [deepcopyList, deepcopy_eq x, deepcopyList_eq xs]

/-- Deep copy of a dict returns a structurally equal dict. -/
theorem deepcopyDict_eq : (xs : List (String × PValue)) → deepcopyDict xs = xs
  | [] => rfl
  | (k, v) :: xs => by rw [deepcopyDict, deepcopy_eq v, deepcopyDict_eq xs]

end

/-- Looking up the key just assigned returns the assigned value. -/
theorem alookup_dinsert (xs : List (String × PValue)) (k : String) (v : PValue) :
    alookup (dinsert xs k v) k = some v := by
  simp [dinsert, alookup]

/-- A direct strong link is a strong path, so the DbPath query sees it. -/
theorem pathExists_of_link (db : DB) (a b : Nat) (lab : String) (st : LinkType)
    (hst : st = LinkType.CREATE ∨ st = LinkType.INPUT)
    (h : (⟨a, b, lab, st⟩ : LinkRow) ∈ db.links) :
    pathExists db a b = true := by
  have hedge : (a, b) ∈ strongEdges db := by
    simp only [strongEdges, List.mem_map]
    refine ⟨⟨a, b, lab, st⟩, ?_, rfl⟩
    rw [List.mem_filter]
    exact ⟨h, by simp [hst]⟩
  obtain ⟨m, hm⟩ : ∃ m, db.links.length = m + 1 := by
    cases hl : db.links with
    | nil => rw [hl] at h; simp at h
    | cons x xs => exact ⟨xs.length, rfl⟩
  rw [pathExists, hm, reachIn, List.any_eq_true]
  refine ⟨(a, b), ?_, by simp⟩
  rw [List.mem_filter]
  exact ⟨hedge, by simp⟩

/-- C6: every attempt to create a link whose source and destination are the
same node fails with the self-link error, whatever the stored status of the
node and before the storedness and cycle checks are even reached: the
result is the self-link error for all values of the stored flags and of the
link table. -/
theorem C6_self_link_rejected (db : DB) (self src : NodeRef)
    (label : Option String) (lt : LinkType) (h : self.uuid = src.uuid) :
    addDblinkFrom db self src label lt
      = .error (.ValueErr ("Cannot link to itself")) := by
  simp [addDblinkFrom, h]

/-- C6 witness: a self-link on an unstored node is rejected. -/
theorem C6_self_link_rejected_witness :
    addDblinkFrom ⟨[]⟩ ⟨1, 10, true⟩ ⟨1, 10, true⟩ none LinkType.CREATE
      = .error (.ValueErr ("Cannot link to itself")) :=
  C6_self_link_rejected ⟨[]⟩ ⟨1, 10, true⟩ ⟨1, 10, true⟩ none LinkType.CREATE rfl

/-- C7: with the (destination, label) pair still free, the first insert of
a link row succeeds and adds exactly that row; a second insert onto the
same destination under the same label (from any source, of any type) then
fails with the uniqueness error, the nested transaction leaving the table
untouched. -/
theorem C7_duplicate_label (db : DB) (self src src' : NodeRef) (lbl : String)
    (lt lt' : LinkType) (h : labelUsed db self.id lbl = false) :
    doCreateLink db src self lbl lt = .ok ⟨⟨src.id, self.id, lbl, lt⟩ :: db.links⟩ ∧
    doCreateLink ⟨⟨src.id, self.id, lbl, lt⟩ :: db.links⟩ src' self lbl lt'
      = .error (.UniquenessError ("There is already a link with the same name")) := by
  constructor
  · simp [doCreateLink, h]
  · have hused : labelUsed ⟨⟨src.id, self.id, lbl, lt⟩ :: db.links⟩ self.id lbl = true := by
      simp [labelUsed]
    simp [doCreateLink, hused]

/-- C7 witness: two inserts onto destination 7 both under the label
data: the first succeeds, the second fails with the uniqueness error. -/
theorem C7_duplicate_label_witness :
    doCreateLink ⟨[]⟩ ⟨4, 9, false⟩ ⟨3, 7, false⟩ "data" LinkType.UNSPECIFIED
      = .ok ⟨[⟨9, 7, "data", LinkType.UNSPECIFIED⟩]⟩ ∧
    doCreateLink ⟨[⟨9, 7, "data", LinkType.UNSPECIFIED⟩]⟩ ⟨6, 11, false⟩ ⟨3, 7, false⟩
        "data" LinkType.CREATE
      = .error (.UniquenessError ("There is already a link with the same name")) :=
  C7_duplicate_label ⟨[]⟩ ⟨3, 7, false⟩ ⟨4, 9, false⟩ ⟨6, 11, false⟩ "data"
    LinkType.UNSPECIFIED LinkType.CREATE rfl

/-- C10: on a key absent from the extras, `get_extra` returns the supplied
default exactly when the default is truthy, and raises a bare
AttributeError when the default is falsy — and the Python falsy values
zero, False and the empty string are falsy in this sense. -/
theorem C10_falsy_default (node : NodeState) (k : String) (d : PValue)
    (h : alookup node.db_extras k = none) :
    (d.truthy = true → get_extra node k d = .ok d) ∧
    (d.truthy = false → get_extra node k d = .error (.AttributeErr (""))) ∧
    (PValue.pyint 0).truthy = false ∧
    (PValue.pybool false).truthy = false ∧
    (PValue.pystr "").truthy = false := by
  refine ⟨?_, ?_, rfl, rfl, by simp [PValue.truthy]⟩
  · intro ht
    simp [get_extra, h, ht]
  · intro ht
    simp [get_extra, h, ht]

/-- C10 witness: with empty extras and the falsy default zero, `get_extra`
raises AttributeError; with the truthy default five it returns five. -/
theorem C10_falsy_default_witness :
    get_extra ⟨11, 110, false, true, none, [], [], 1, false, []⟩ "zz" (PValue.pyint 0)
      = .error (.AttributeErr ("")) ∧
    get_extra ⟨11, 110, false, true, none, [], [], 1, false, []⟩ "zz" (PValue.pyint 5)
      = .ok (PValue.pyint 5) :=
  ⟨(C10_falsy_default ⟨11, 110, false, true, none, [], [], 1, false, []⟩ "zz"
      (PValue.pyint 0) rfl).2.1 rfl,
   (C10_falsy_default ⟨11, 110, false, true, none, [], [], 1, false, []⟩ "zz"
      (PValue.pyint 5) rfl).1 rfl⟩

/-- C4: for stored nodes A and B with an existing strong link from A to B,
committing a strong link from B to A (destination A, source B) fails with
the loop error, because the DbPath query finds the path from A back to B;
committing a non-strong link between the same nodes under a free label
succeeds, the cycle check not being applied to non-strong types. -/
theorem C4_strong_cycle (db : DB) (A B : NodeRef) (lab lbl : String)
    (st lt lt' : LinkType)
    (hA : A.to_be_stored = false) (hB : B.to_be_stored = false)
    (huuid : ¬ A.uuid = B.uuid)
    (hst : st = LinkType.CREATE ∨ st = LinkType.INPUT)
    (hlink : (⟨A.id, B.id, lab, st⟩ : LinkRow) ∈ db.links)
    (hstrong : lt = LinkType.CREATE ∨ lt = LinkType.INPUT)
    (hweak : ¬ (lt' = LinkType.CREATE ∨ lt' = LinkType.INPUT))
    (hfresh : labelUsed db A.id lbl = false) :
    addDblinkFrom db A B (some lbl) lt
      = .error (.ValueErr ("The link you are attempting to create would generate a loop")) ∧
    addDblinkFrom db A B (some lbl) lt'
      = .ok ⟨⟨B.id, A.id, lbl, lt'⟩ :: db.links⟩ := by
  have hpath := pathExists_of_link db A.id B.id lab st hst hlink
  constructor
  · simp [addDblinkFrom, huuid, hA, hB, hstrong, hpath]
  · simp [addDblinkFrom, huuid, hA, hB, hweak, hpath, doCreateLink, hfresh]

/-- A successful link flush on a stored node clears the link cache and
leaves the rest of the node unchanged. -/
theorem storeCachedInputLinks_none (node : NodeState) (db : DB)
    (node' : NodeState) (db' : DB)
    (hts : node.to_be_stored = false)
    (h : storeCachedInputLinks node db = (node', db', none)) :
    node' = { node with inputlinks_cache := [] } := by
  unfold storeCachedInputLinks at h
  rw [if_neg (by simp [hts])] at h
  split at h
  · simp at h
  · split at h
    next heq =>
      simp only [Prod.mk.injEq] at h
      exact h.1.symm
    next heq => simp at h

/-- A failed link flush on a stored node leaves the node object exactly as
it was handed in. -/
theorem storeCachedInputLinks_some (node : NodeState) (db : DB)
    (node' : NodeState) (db' : DB) (e : PyErr)
    (h : storeCachedInputLinks node db = (node', db', some e)) :
    node' = node := by
  unfold storeCachedInputLinks at h
  split at h
  · simp only [Prod.mk.injEq] at h
    exact h.1.symm
  · split at h
    · simp only [Prod.mk.injEq] at h
      exact h.1.symm
    · split at h
      next heq => simp at h
      next heq =>
        simp only [Prod.mk.injEq] at h
        exact h.1.symm

/-- A `store` call on an unstored node that raises no exception ran the
full success path: the returned node is the row-written node with its link
cache cleared, and the autogroup hook ran according to the context. -/
theorem store_success_shape (env : Env) (node : NodeState) (db : DB)
    (hts : node.to_be_stored = true)
    (h : (store env node db).err = none) :
    ∃ db', store env node db =
      ⟨{ afterRowWrite node with inputlinks_cache := [] }, db', none,
        env.autogroup_active⟩ := by
  by_cases hv : node.valid = false
  · have hc : (store env node db).err
        = some (.ValidationErr ("node validation failed")) := by
      unfold store
      rw [hts, hv]
      simp
    rw [hc] at h
    exact absurd h (by simp)
  · cases hpar : checkAreParentsStored node with
    | some e =>
      have hc : (store env node db).err = some e := by
        unfold store
        rw [hts, if_neg hv, hpar]
        simp
      rw [hc] at h
      exact absurd h (by simp)
    | none =>
      by_cases hfm : env.file_move_ok = false
      · have hc : (store env node db).err
            = some (.OSErr ("could not replace the repository folder")) := by
          unfold store
          rw [hts, if_neg hv, hpar, hfm]
          simp
        rw [hc] at h
        exact absurd h (by simp)
      · by_cases hrs : env.row_save_ok = false
        · have hc : (store env node db).err
              = some (.SQLAlchemyErr ("could not save the node row")) := by
            unfold store
            rw [hts, if_neg hv, hpar, if_neg hfm, hrs]
            simp
          rw [hc] at h
          exact absurd h (by simp)
        · have hstep : store env node db
              = (match storeCachedInputLinks (afterRowWrite node) db with
                 | (node', db', none) => ⟨node', db', none, env.autogroup_active⟩
                 | (node', db', some e) =>
                     ⟨{ node' with files_staged := true }, db', some e, false⟩) := by
            unfold store
            rw [hts, if_neg hv, hpar, if_neg hfm, if_neg hrs]
            simp
          rcases hsc : storeCachedInputLinks (afterRowWrite node) db with ⟨node', db', oe⟩
          rw [hsc] at hstep
          cases oe with
          | some e =>
            rw [hstep] at h
            exact absurd h (by simp)
          | none =>
            refine ⟨db', ?_⟩
            rw [hstep,
              storeCachedInputLinks_none (afterRowWrite node) db node' db' rfl hsc]

/-- A `store` call that raises no exception always leaves the stored flag
cleared (whether it stored the node or was a no-op on a stored node). -/
theorem store_err_none_flag (env : Env) (node : NodeState) (db : DB)
    (h : (store env node db).err = none) :
    (store env node db).node.to_be_stored = false := by
  by_cases hts : node.to_be_stored = true
  · obtain ⟨db', hshape⟩ := store_success_shape env node db hts h
    rw [hshape]
    rfl
  · have hts' : node.to_be_stored = false := by
      revert hts; cases node.to_be_stored <;> simp
    unfold store
    rw [hts']
    simpa using hts'

/-- C2: `store` on an already-stored node is a no-op returning the node
unchanged, with no error, no table change and no autogroup hook; and after
any error-free `store`, a second `store` (under any environment) is such a
no-op, so storing twice equals storing once. -/
theorem C2_store_idempotent (env env' : Env) (node : NodeState) (db : DB) :
    (node.to_be_stored = false → store env node db = ⟨node, db, none, false⟩) ∧
    ((store env node db).err = none →
      store env' (store env node db).node (store env node db).db
        = ⟨(store env node db).node, (store env node db).db, none, false⟩) := by
  constructor
  · intro h
    unfold store
    rw [h]
    simp
  · intro h
    have hflag := store_err_none_flag env node db h
    generalize hR : store env node db = R at hflag
    unfold store
    rw [hflag]
    simp

/-- C2 witness: a second `store` of a freshly stored node returns it
unchanged. -/
theorem C2_store_idempotent_witness :
    store ⟨true, true, false⟩
        ⟨3, 30, false, true, none, [("y", PValue.pyint 2)], [], 1, false, []⟩ ⟨[]⟩
      = ⟨⟨3, 30, false, true, none, [("y", PValue.pyint 2)], [], 1, false, []⟩,
         ⟨[]⟩, none, false⟩ :=
  (C2_store_idempotent ⟨true, true, false⟩ ⟨true, true, false⟩
    ⟨3, 30, false, true, none, [("y", PValue.pyint 2)], [], 1, false, []⟩ ⟨[]⟩).1 rfl

/-- C3: storing a node that has a cached input link whose source is itself
unstored fails with ModificationNotAllowed, and nothing changes: the node
object, the stored flag, the caches and the link table are exactly as
before the call, and no autogroup hook ran. -/
theorem C3_unstored_parent (env : Env) (node : NodeState) (db : DB)
    (h1 : node.to_be_stored = true) (h2 : node.valid = true)
    (h3 : ∃ p ∈ node.inputlinks_cache, p.2.1.to_be_stored = true) :
    ∃ msg, store env node db
      = ⟨node, db, some (.ModificationNotAllowed msg), false⟩ := by
  obtain ⟨p, hp, hps⟩ := h3
  have hsome : (node.inputlinks_cache.find? (fun e => e.2.1.to_be_stored)).isSome := by
    rw [List.find?_isSome]
    exact ⟨p, hp, hps⟩
  obtain ⟨e, he⟩ := Option.isSome_iff_exists.mp hsome
  refine ⟨"Cannot store the input link " ++ e.1 ++
    " because the source node is not stored", ?_⟩
  have hpar : checkAreParentsStored node
      = some (.ModificationNotAllowed ("Cannot store the input link " ++ e.1 ++
          " because the source node is not stored")) := by
    unfold checkAreParentsStored
    rw [he]
  unfold store
  rw [h1, h2, hpar]
  simp

/-- C3 witness: a node with the cached input link par from an unstored
source fails to store with ModificationNotAllowed, all state unchanged. -/
theorem C3_unstored_parent_witness :
    ∃ msg, store ⟨true, true, false⟩
        ⟨6, 60, true, true, some [], [], [], 1, true, [("par", ⟨5, 50, true⟩, LinkType.INPUT)]⟩
        ⟨[]⟩
      = ⟨⟨6, 60, true, true, some [], [], [], 1, true,
          [("par", ⟨5, 50, true⟩, LinkType.INPUT)]⟩,
         ⟨[]⟩, some (.ModificationNotAllowed msg), false⟩ :=
  C3_unstored_parent ⟨true, true, false⟩
    ⟨6, 60, true, true, some [], [], [], 1, true, [("par", ⟨5, 50, true⟩, LinkType.INPUT)]⟩
    ⟨[]⟩ rfl rfl ⟨("par", ⟨5, 50, true⟩, LinkType.INPUT), by simp, rfl⟩

/-- C8: setting an attribute on an unstored node deep-copies the value
into the cache (the copy being structurally equal to the original), the
cache read returns it while unstored, and after an error-free `store` the
stored-side `get_attr` returns exactly the value that was set. -/
theorem C8_attr_roundtrip (env : Env) (node : NodeState) (db : DB)
    (k : String) (v : PValue)
    (h1 : node.to_be_stored = true)
    (h2 : (store env (set_attr node k v) db).err = none) :
    deepcopy v = v ∧
    get_attr (set_attr node k v) k none = .ok (deepcopy v) ∧
    get_attr (store env (set_attr node k v) db).node k none = .ok v := by
  have hd := deepcopy_eq v
  have hset : set_attr node k v
      = { node with
          attrs_cache := some (dinsert (node.attrs_cache.getD []) k (deepcopy v)) } := by
    unfold set_attr
    rw [h1]
    simp
  refine ⟨hd, ?_, ?_⟩
  · rw [hset]
    unfold get_attr
    simp [h1, alookup_dinsert]
  · have hts : (set_attr node k v).to_be_stored = true := by rw [hset]; exact h1
    obtain ⟨db', hshape⟩ := store_success_shape env (set_attr node k v) db hts h2
    rw [hshape]
    unfold get_attr
    simp only [afterRowWrite, hset]
    simp [alookup_dinsert, hd]

/-- C8 witness: set x to one on a fresh unstored node, store it, read x
back and get one. -/
theorem C8_attr_roundtrip_witness :
    deepcopy (PValue.pyint 1) = PValue.pyint 1 ∧
    get_attr (set_attr ⟨4, 40, true, true, some [], [], [], 1, true, []⟩ "x" (PValue.pyint 1))
        "x" none = .ok (deepcopy (PValue.pyint 1)) ∧
    get_attr (store ⟨true, true, false⟩
        (set_attr ⟨4, 40, true, true, some [], [], [], 1, true, []⟩ "x" (PValue.pyint 1))
        ⟨[]⟩).node "x" none = .ok (PValue.pyint 1) :=
  C8_attr_roundtrip ⟨true, true, false⟩ ⟨4, 40, true, true, some [], [], [], 1, true, []⟩
    ⟨[]⟩ "x" (PValue.pyint 1) rfl rfl

/-- C4 witness: nodes with ids 70 and 80 and a CREATE link from 70 to 80;
the INPUT link back fails with the loop error, the RETURN link back is
inserted. -/
theorem C4_strong_cycle_witness :
    addDblinkFrom ⟨[⟨70, 80, "lab", LinkType.CREATE⟩]⟩ ⟨7, 70, false⟩ ⟨8, 80, false⟩
        (some "z") LinkType.INPUT
      = .error (.ValueErr ("The link you are attempting to create would generate a loop")) ∧
    addDblinkFrom ⟨[⟨70, 80, "lab", LinkType.CREATE⟩]⟩ ⟨7, 70, false⟩ ⟨8, 80, false⟩
        (some "z") LinkType.RETURN
      = .ok ⟨[⟨80, 70, "z", LinkType.RETURN⟩, ⟨70, 80, "lab", LinkType.CREATE⟩]⟩ :=
  C4_strong_cycle ⟨[⟨70, 80, "lab", LinkType.CREATE⟩]⟩ ⟨7, 70, false⟩ ⟨8, 80, false⟩
    "lab" "z" LinkType.CREATE LinkType.INPUT LinkType.RETURN rfl rfl (by decide)
    (Or.inl rfl) (by simp) (Or.inr rfl) (by decide) rfl

/-- The skip loop never moves the label index backwards. -/
theorem skipUsed_ge (existing : List String) :
    ∀ fuel idx, idx ≤ skipUsed existing idx fuel := by
  intro fuel
  induction fuel with
  | zero => intro idx; exact le_of_eq rfl
  | succ n ih =>
    intro idx
    rw [skipUsed]
    split
    · exact le_trans (Nat.le_succ idx) (ih (idx + 1))
    · exact le_refl idx

/-- Every index the skip loop passes over carries a label that is among
the existing autolabels. -/
theorem skipUsed_mem (existing : List String) :
    ∀ fuel idx m, idx ≤ m → m < skipUsed existing idx fuel →
      autoLabel m ∈ existing := by
  intro fuel
  induction fuel with
  | zero =>
    intro idx m h1 h2
    rw [skipUsed] at h2
    omega
  | succ n ih =>
    intro idx m h1 h2
    rw [skipUsed] at h2
    split at h2
    next hmem =>
      rcases Nat.eq_or_lt_of_le h1 with heq | hlt
      · rw [← heq]
        exact hmem
      · exact ih (idx + 1) m hlt h2
    next hmem => omega

/-- A label among the existing autolabels of a destination is indeed used
by some link into that destination. -/
theorem labelUsed_of_existing (db : DB) (dest : Nat) (s : String)
    (h : s ∈ existingAutolabels db dest) : labelUsed db dest s = true := by
  simp only [existingAutolabels, List.mem_map] at h
  obtain ⟨r, hr, hrl⟩ := h
  rw [List.mem_filter] at hr
  obtain ⟨hmem, hcond⟩ := hr
  rw [labelUsed, List.any_eq_true]
  refine ⟨r, hmem, ?_⟩
  rw [Bool.and_eq_true] at hcond
  simp only [decide_eq_true_eq] at hcond ⊢
  exact ⟨hcond.1, hrl⟩

/-- When the autolabel retry loop succeeds it has inserted exactly one
link row, under a fresh label whose index is at least the starting index,
and every index it retried past was already used. -/
theorem autolabelGo_ok (db : DB) (src self : NodeRef) (lt : LinkType) :
    ∀ budget idx db',
      autolabelGo db src self lt idx budget = .ok db' →
      ∃ n, idx ≤ n ∧ labelUsed db self.id (autoLabel n) = false ∧
        db' = ⟨⟨src.id, self.id, autoLabel n, lt⟩ :: db.links⟩ ∧
        ∀ m, idx ≤ m → m < n → labelUsed db self.id (autoLabel m) = true := by
  intro budget
  induction budget with
  | zero =>
    intro idx db' h
    exact absurd h (by simp [autolabelGo])
  | succ g ih =>
    intro idx db' h
    rw [autolabelGo] at h
    cases hu : labelUsed db self.id (autoLabel idx) with
    | false =>
      rw [show doCreateLink db src self (autoLabel idx) lt
          = .ok ⟨⟨src.id, self.id, autoLabel idx, lt⟩ :: db.links⟩ from by
        simp [doCreateLink, hu]] at h
      simp only [Except.ok.injEq] at h
      exact ⟨idx, le_refl idx, hu, h.symm, fun m hm1 hm2 => by omega⟩
    | true =>
      rw [show doCreateLink db src self (autoLabel idx) lt
          = .error (.UniquenessError ("There is already a link with the same name")) from by
        simp [doCreateLink, hu]] at h
      obtain ⟨n, hn1, hn2, hn3, hn4⟩ := ih (idx + 1) db' h
      refine ⟨n, by omega, hn2, hn3, fun m hm1 hm2 => ?_⟩
      rcases Nat.eq_or_lt_of_le hm1 with heq | hlt
      · rw [← heq]
        exact hu
      · exact hn4 m hlt hm2

/-- When every label from the current index through the remaining budget
is already used, the autolabel loop exhausts its attempts and fails with
InternalError instead of inserting a duplicate. -/
theorem autolabelGo_exhausted (db : DB) (src self : NodeRef) (lt : LinkType) :
    ∀ budget idx,
      (∀ k, k < budget → labelUsed db self.id (autoLabel (idx + k)) = true) →
      autolabelGo db src self lt idx budget
        = .error (.InternalError
            ("found more than 100 concurrent adds of links to the same nodes")) := by
  intro budget
  induction budget with
  | zero =>
    intro idx _
    rw [autolabelGo]
  | succ g ih =>
    intro idx hall
    rw [autolabelGo]
    have hu : labelUsed db self.id (autoLabel idx) = true := by
      have h0 := hall 0 (by omega)
      simpa using h0
    rw [show doCreateLink db src self (autoLabel idx) lt
        = .error (.UniquenessError ("There is already a link with the same name")) from by
      simp [doCreateLink, hu]]
    exact ih (idx + 1) (fun k hk => by
      have hk1 := hall (k + 1) (by omega)
      rw [show idx + 1 + k = idx + (k + 1) from by omega]
      exact hk1)

/-- C5: an unlabeled link insert that succeeds has inserted exactly one
row whose label is of the form link underscore n for an integer n at least
one that was not yet used on this destination, every smaller candidate
index from one on being already used (labels are generated increasingly,
skipping used ones, and a duplicate is never inserted); and whenever the
whole remaining retry budget (100 attempts from a fresh call) meets only
used labels, the loop fails with the InternalError signalling pathological
concurrency instead of inserting a duplicate. -/
theorem C5_autolabel :
    (∀ (db : DB) (self src : NodeRef) (lt : LinkType) (db' : DB),
       addDblinkFrom db self src none lt = .ok db' →
       ∃ n, 1 ≤ n ∧ labelUsed db self.id (autoLabel n) = false ∧
         db' = ⟨⟨src.id, self.id, autoLabel n, lt⟩ :: db.links⟩ ∧
         ∀ m, 1 ≤ m → m < n → labelUsed db self.id (autoLabel m) = true) ∧
    (∀ (db : DB) (self src : NodeRef) (lt : LinkType) (idx counter : Nat),
       counter ≤ 100 →
       (∀ k, k < 100 - counter → labelUsed db self.id (autoLabel (idx + k)) = true) →
       autolabelLoop db src self lt idx counter
         = .error (.InternalError
             ("found more than 100 concurrent adds of links to the same nodes"))) := by
  constructor
  · intro db self src lt db' h
    unfold addDblinkFrom at h
    split at h
    · exact absurd h (by simp)
    · split at h
      · exact absurd h (by simp)
      · split at h
        · exact absurd h (by simp)
        · split at h
          · exact absurd h (by simp)
          · obtain ⟨n, hn1, hn2, hn3, hn4⟩ :=
              autolabelGo_ok db src self lt 100
                (skipUsed (existingAutolabels db self.id) 1
                  ((existingAutolabels db self.id).length + 1)) db' h
            have hstart := skipUsed_ge (existingAutolabels db self.id)
              ((existingAutolabels db self.id).length + 1) 1
            refine ⟨n, by omega, hn2, hn3, fun m hm1 hm2 => ?_⟩
            by_cases hms : m < skipUsed (existingAutolabels db self.id) 1
                ((existingAutolabels db self.id).length + 1)
            · exact labelUsed_of_existing db self.id (autoLabel m)
                (skipUsed_mem (existingAutolabels db self.id)
                  ((existingAutolabels db self.id).length + 1) 1 m hm1 hms)
            · exact hn4 m (by omega) hm2
  · intro db self src lt idx counter hc hall
    exact autolabelGo_exhausted db src self lt (100 - counter) idx hall

/-- C5 witness: with link underscore one already used on destination 7,
an unlabeled insert succeeds with the fresh label of index two; and a
retry-budget remainder of one attempt meeting only used labels ends in
InternalError. -/
theorem C5_autolabel_witness :
    (∃ n, 1 ≤ n ∧
       labelUsed ⟨[⟨9, 7, "link_1", LinkType.UNSPECIFIED⟩]⟩ 7 (autoLabel n) = false ∧
       (⟨[⟨9, 7, "link_2", LinkType.UNSPECIFIED⟩, ⟨9, 7, "link_1", LinkType.UNSPECIFIED⟩]⟩ : DB)
         = ⟨⟨9, 7, autoLabel n, LinkType.UNSPECIFIED⟩ :: [⟨9, 7, "link_1", LinkType.UNSPECIFIED⟩]⟩ ∧
       ∀ m, 1 ≤ m → m < n →
         labelUsed ⟨[⟨9, 7, "link_1", LinkType.UNSPECIFIED⟩]⟩ 7 (autoLabel m) = true) ∧
    autolabelLoop ⟨[⟨9, 7, "link_1", LinkType.UNSPECIFIED⟩]⟩ ⟨4, 9, false⟩ ⟨3, 7, false⟩
        LinkType.UNSPECIFIED 1 99
      = .error (.InternalError
          ("found more than 100 concurrent adds of links to the same nodes")) :=
  ⟨C5_autolabel.1 ⟨[⟨9, 7, "link_1", LinkType.UNSPECIFIED⟩]⟩ ⟨3, 7, false⟩ ⟨4, 9, false⟩
      LinkType.UNSPECIFIED
      ⟨[⟨9, 7, "link_2", LinkType.UNSPECIFIED⟩, ⟨9, 7, "link_1", LinkType.UNSPECIFIED⟩]⟩ rfl,
   C5_autolabel.2 ⟨[⟨9, 7, "link_1", LinkType.UNSPECIFIED⟩]⟩ ⟨3, 7, false⟩ ⟨4, 9, false⟩
      LinkType.UNSPECIFIED 1 99 (by decide) (by decide)⟩

/-- C1 counterexample: storing an unstored node whose single cached input
link collides with an existing label in the table makes the link flush
fail after the row write; `store` moves the files back and re-raises, yet
afterwards the stored flag is already false and the attribute cache
already deleted — not, as the claim states, still true and still
present. -/
theorem C1_store_failure_counterexample :
    (store ⟨true, true, false⟩
        ⟨2, 20, true, true, some [("x", PValue.pyint 1)], [], [], 1, true,
          [("data", ⟨1, 10, false⟩, LinkType.INPUT)]⟩
        ⟨[⟨99, 20, "data", LinkType.UNSPECIFIED⟩]⟩).err
      = some (.UniquenessError ("There is already a link with the same name")) ∧
    (store ⟨true, true, false⟩
        ⟨2, 20, true, true, some [("x", PValue.pyint 1)], [], [], 1, true,
          [("data", ⟨1, 10, false⟩, LinkType.INPUT)]⟩
        ⟨[⟨99, 20, "data", LinkType.UNSPECIFIED⟩]⟩).node.files_staged = true ∧
    (store ⟨true, true, false⟩
        ⟨2, 20, true, true, some [("x", PValue.pyint 1)], [], [], 1, true,
          [("data", ⟨1, 10, false⟩, LinkType.INPUT)]⟩
        ⟨[⟨99, 20, "data", LinkType.UNSPECIFIED⟩]⟩).node.to_be_stored = false ∧
    (store ⟨true, true, false⟩
        ⟨2, 20, true, true, some [("x", PValue.pyint 1)], [], [], 1, true,
          [("data", ⟨1, 10, false⟩, LinkType.INPUT)]⟩
        ⟨[⟨99, 20, "data", LinkType.UNSPECIFIED⟩]⟩).node.attrs_cache = none :=
  ⟨rfl, rfl, rfl, rfl⟩

/-- C1 (amended): a `store` failure at or before the row write leaves the
node fully unstored — files back in staging, `to_be_stored` still true,
attribute cache intact — so the caller can retry; but a failure during
link flushing (after the row write) only moves the files back to staging
and re-raises, while `to_be_stored` is already false and the attribute
cache already deleted, leaving the node half-stored in memory. -/
theorem C1_store_failure_states (env : Env) (node : NodeState) (db : DB)
    (h1 : node.to_be_stored = true) (h2 : node.valid = true)
    (h3 : checkAreParentsStored node = none)
    (h4 : env.file_move_ok = true) (h5 : node.files_staged = true) :
    (env.row_save_ok = false →
       store env node db
         = ⟨node, db, some (.SQLAlchemyErr ("could not save the node row")), false⟩) ∧
    (∀ e node' db', env.row_save_ok = true →
       storeCachedInputLinks (afterRowWrite node) db = (node', db', some e) →
       (store env node db).err = some e ∧
       (store env node db).node.files_staged = true ∧
       (store env node db).node.to_be_stored = false ∧
       (store env node db).node.attrs_cache = none) := by
  obtain ⟨u, i, ts, vl, ac, da, de, nv, fs, ilc⟩ := node
  replace h1 : ts = true := h1
  replace h2 : vl = true := h2
  replace h5 : fs = true := h5
  subst h1
  subst h2
  subst h5
  constructor
  · intro hrs
    unfold store
    rw [h3]
    simp [h4, hrs]
  · intro e node' db' hrs hsc
    have hnode' : node'
        = afterRowWrite ⟨u, i, true, true, ac, da, de, nv, true, ilc⟩ :=
      storeCachedInputLinks_some _ db node' db' e hsc
    have hstore : store env ⟨u, i, true, true, ac, da, de, nv, true, ilc⟩ db
        = ⟨{ node' with files_staged := true }, db', some e, false⟩ := by
      unfold store
      rw [h3]
      simp only [h4, hrs]
      rw [hsc]
      simp
    rw [hstore, hnode']
    exact ⟨rfl, rfl, rfl, rfl⟩

/-- C1 witness: a row-save failure leaves the node unstored and
retryable; a link-flush failure (label collision with an existing link)
leaves the files staged but the flag cleared and the cache gone. -/
theorem C1_store_failure_states_witness :
    (store ⟨true, false, false⟩
        ⟨2, 20, true, true, some [("x", PValue.pyint 1)], [], [], 1, true,
          [("data", ⟨1, 10, false⟩, LinkType.INPUT)]⟩ ⟨[]⟩
      = ⟨⟨2, 20, true, true, some [("x", PValue.pyint 1)], [], [], 1, true,
          [("data", ⟨1, 10, false⟩, LinkType.INPUT)]⟩, ⟨[]⟩,
         some (.SQLAlchemyErr ("could not save the node row")), false⟩) ∧
    ((store ⟨true, true, false⟩
        ⟨2, 20, true, true, some [("x", PValue.pyint 1)], [], [], 1, true,
          [("data", ⟨1, 10, false⟩, LinkType.INPUT)]⟩
        ⟨[⟨99, 20, "data", LinkType.UNSPECIFIED⟩]⟩).err
          = some (.UniquenessError ("There is already a link with the same name")) ∧
     (store ⟨true, true, false⟩
        ⟨2, 20, true, true, some [("x", PValue.pyint 1)], [], [], 1, true,
          [("data", ⟨1, 10, false⟩, LinkType.INPUT)]⟩
        ⟨[⟨99, 20, "data", LinkType.UNSPECIFIED⟩]⟩).node.files_staged = true ∧
     (store ⟨true, true, false⟩
        ⟨2, 20, true, true, some [("x", PValue.pyint 1)], [], [], 1, true,
          [("data", ⟨1, 10, false⟩, LinkType.INPUT)]⟩
        ⟨[⟨99, 20, "data", LinkType.UNSPECIFIED⟩]⟩).node.to_be_stored = false ∧
     (store ⟨true, true, false⟩
        ⟨2, 20, true, true, some [("x", PValue.pyint 1)], [], [], 1, true,
          [("data", ⟨1, 10, false⟩, LinkType.INPUT)]⟩
        ⟨[⟨99, 20, "data", LinkType.UNSPECIFIED⟩]⟩).node.attrs_cache = none) :=
  ⟨(C1_store_failure_states ⟨true, false, false⟩
      ⟨2, 20, true, true, some [("x", PValue.pyint 1)], [], [], 1, true,
        [("data", ⟨1, 10, false⟩, LinkType.INPUT)]⟩ ⟨[]⟩
      rfl rfl rfl rfl rfl).1 rfl,
   (C1_store_failure_states ⟨true, true, false⟩
      ⟨2, 20, true, true, some [("x", PValue.pyint 1)], [], [], 1, true,
        [("data", ⟨1, 10, false⟩, LinkType.INPUT)]⟩
      ⟨[⟨99, 20, "data", LinkType.UNSPECIFIED⟩]⟩
      rfl rfl rfl rfl rfl).2
      (.UniquenessError ("There is already a link with the same name"))
      ⟨2, 20, false, true, none, [("x", PValue.pyint 1)], [], 1, false,
        [("data", ⟨1, 10, false⟩, LinkType.INPUT)]⟩
      ⟨[⟨99, 20, "data", LinkType.UNSPECIFIED⟩]⟩ rfl rfl⟩

/-- C9 counterexample: on an unstored node whose row column already holds
the extra named a, `get_extra` returns the value and `del_extra` raises
nothing — neither fails with ModificationNotAllowed as the claim states
for all three extra operations. -/
theorem C9_extras_counterexample :
    (⟨11, 110, true, true, some [], [], [("a", PValue.pyint 7)], 1, true, []⟩
        : NodeState).to_be_stored = true ∧
    get_extra ⟨11, 110, true, true, some [], [], [("a", PValue.pyint 7)], 1, true, []⟩
        "a" PValue.pynone = .ok (PValue.pyint 7) ∧
    (del_extra ⟨11, 110, true, true, some [], [], [("a", PValue.pyint 7)], 1, true, []⟩
        "a").2 = none :=
  ⟨rfl, rfl, rfl⟩

/-- C9 (amended): on an unstored node, `set_extra` fails with
ModificationNotAllowed leaving the node unchanged, but `get_extra` and
`del_extra` perform no storedness check at all: `get_extra` behaves
exactly as it would on a stored node with the same extras column, and
`del_extra` silently delegates the deletion to the backend column. -/
theorem C9_extras_unstored (node : NodeState) (k : String) (v d : PValue)
    (h : node.to_be_stored = true) :
    (set_extra node k v).1 = node ∧
    (set_extra node k v).2
      = some (.ModificationNotAllowed
          ("The extras of a node can be set only after storing the node")) ∧
    get_extra node k d = get_extra { node with to_be_stored := false } k d ∧
    (del_extra node k).2 = none ∧
    (del_extra node k).1.db_extras = dremove node.db_extras k := by
  refine ⟨?_, ?_, rfl, rfl, rfl⟩ <;> simp [set_extra, h]

/-- C9 witness: the amended contract evaluated on a concrete unstored
node holding the extra a. -/
theorem C9_extras_unstored_witness :
    (set_extra ⟨11, 110, true, true, some [], [], [("a", PValue.pyint 7)], 1, true, []⟩
        "a" (PValue.pyint 1)).1
      = ⟨11, 110, true, true, some [], [], [("a", PValue.pyint 7)], 1, true, []⟩ ∧
    (set_extra ⟨11, 110, true, true, some [], [], [("a", PValue.pyint 7)], 1, true, []⟩
        "a" (PValue.pyint 1)).2
      = some (.ModificationNotAllowed
          ("The extras of a node can be set only after storing the node")) ∧
    get_extra ⟨11, 110, true, true, some [], [], [("a", PValue.pyint 7)], 1, true, []⟩
        "a" PValue.pynone
      = get_extra ⟨11, 110, false, true, some [], [], [("a", PValue.pyint 7)], 1, true, []⟩
        "a" PValue.pynone ∧
    (del_extra ⟨11, 110, true, true, some [], [], [("a", PValue.pyint 7)], 1, true, []⟩
        "a").2 = none ∧
    (del_extra ⟨11, 110, true, true, some [], [], [("a", PValue.pyint 7)], 1, true, []⟩
        "a").1.db_extras
      = dremove [("a", PValue.pyint 7)] "a" :=
  C9_extras_unstored
    ⟨11, 110, true, true, some [], [], [("a", PValue.pyint 7)], 1, true, []⟩
    "a" (PValue.pyint 1) PValue.pynone rfl

end AiidaNode
